import Mathlib

/-!
Verification of the KichwaApp desktop viewer
(src/Kichwa_info_Reconociendonos.py) against its natural-language
specification.  The Python module is shallowly embedded: the nested
content dictionary becomes ordered association lists, Python dict
lookup becomes an Option-returning lookup (a missing key, which raises
KeyError in Python, becomes none / an Except.error), and each tab
builder of the class definition that is actually executed (the second
one, which shadows the first) becomes a function emitting the sequence
of visual blocks it appends to its scrollable frame.
-/

namespace Kichwa

/-- One region entry of the "pueblos" sub-dictionary: a description plus the
list of its main communities (source lines 618-625). -/
structure Region where
  descripcion : String
  comunidades : List String
  deriving DecidableEq, Repr

/-- A value stored under a subtopic key of the content dictionary.  The
Python literal only ever stores a string, a list of strings, a list of
3-element string lists (the vocabulary table), a string-to-string
dictionary, or the dictionary of regions. -/
inductive Entry where
  | text (s : String)
  | strList (xs : List String)
  | table (rows : List (List String))
  | strDict (kvs : List (String × String))
  | pueblosDict (kvs : List (String × Region))
  deriving DecidableEq, Repr

/-- One topic of the content store: the ordered key/value pairs of its
sub-dictionary.  Its entries are the "sections" of the topic. -/
abbrev Topic := List (String × Entry)

/-- The whole content store: topic key to topic, in literal order. -/
abbrev Store := List (String × Topic)

/-- The colors dictionary built by configure_styles: token name to value. -/
abbrev Colors := List (String × String)

/-- Python dict lookup d[k], returning none when the key is absent (Python
raises KeyError there).  Keys of the embedded literals are unique, so
first-match lookup agrees with Python dict semantics. -/
def dictGet {α : Type} : List (String × α) → String → Option α
  | [], _ => none
  | (k, v) :: rest, key => if k = key then some v else dictGet rest key

/-- Python dict lookup d[k] in the Except monad: a missing key raises
KeyError. -/
def dictGetE {α : Type} (d : List (String × α)) (key : String) : Except String α :=
  match dictGet d key with
  | some v => Except.ok v
  | none => Except.error ("KeyError: " ++ key)

/-- Literal rows of the basic-vocabulary table in load_kichwa_data (source lines 636-647). -/
def vocabulario_basico : List (List String) := [
  ["Hola", "Imanalla", "Imanalla (imanalya)"],
  ["Gracias", "Yupaychani", "Yupaychani (yupay-cha-ni)"],
  ["Sí", "Ari", "Ari"],
  ["No", "Mana", "Mana"],
  ["Agua", "Yaku", "Yaku"],
  ["Tierra", "Allpa", "Alypa"],
  ["Sol", "Inti", "Inti"],
  ["Luna", "Killa", "Kilya"],
  ["Hombre", "Kari", "Kari"],
  ["Mujer", "Warmi", "Warmi"]]

/-- Literal color-meaning mapping in load_kichwa_data (source lines 685-692). -/
def significado_colores : List (String × String) := [
  ("Rojo (Puka)",
    "Representa la tierra, la sangre, la fuerza y la vitalidad. Simboliza el poder y la energía de la Pachamama."),
  ("Dorado/Amarillo (Killu)",
    "Asociado con el sol (Inti), la abundancia, las cosechas y la riqueza espiritual."),
  ("Azul (Ankas)",
    "Simboliza el agua, el cielo y el espacio. Representa la sabiduría y el universo."),
  ("Verde (Waylla)",
    "Representa la naturaleza, las plantas y la renovación. Símbolo de fertilidad y vida."),
  ("Negro (Yana)",
    "Asociado con la oscuridad primordial, el misterio y la transformación."),
  ("Blanco (Yurak)",
    "Simboliza la pureza, la claridad y la conexión con el mundo espiritual.")]

/-- Topic "informacion_general" of load_kichwa_data, transcribed from the source literal. -/
def topic_informacion_general : Topic := [
  ("introduccion",
    Entry.text "Los Kichwas constituyen el grupo indígena más numeroso de Ecuador. Son herederos de una rica tradición cultural que ha evolucionado desde tiempos precolombinos, fusionando elementos andinos ancestrales con influencias posteriores. Se caracterizan por mantener viva su identidad a través de su idioma, prácticas comunitarias, vestimenta tradicional, artesanías, música y cosmovisión."),
  ("historia",
    Entry.text "Los Kichwas ecuatorianos son descendientes de los pueblos que habitaban la región andina antes de la llegada de los incas y los españoles. Durante el Imperio Inca (siglo XV), muchos grupos indígenas fueron \x27kichwaizados\x27 como parte de la política de unificación cultural. Con la colonización española, los Kichwas enfrentaron opresión y transformaciones sociales profundas, pero lograron preservar elementos fundamentales de su cultura. Durante los siglos XX y XXI, han protagonizado importantes movimientos de reivindicación política y cultural."),
  ("distribucion_geografica",
    Entry.text "Los pueblos Kichwas se distribuyen principalmente en la región andina (Sierra) y en partes de la Amazonía ecuatoriana. Cada región presenta variaciones culturales específicas que reflejan adaptaciones a diferentes entornos ecológicos y procesos históricos particulares."),
  ("caracteristicas_culturales",
    Entry.strList [
      "Organización social basada en comunidades y el ayllu (familia extendida).",
      "Economía tradicional centrada en la agricultura, complementada con ganadería y artesanía.",
      "Prácticas de reciprocidad y trabajo comunitario (minga).",
      "Vestimenta distintiva que varía según la región, con elementos simbólicos.",
      "Celebración de fiestas vinculadas al calendario agrícola y religioso."])]

/-- Topic "regiones" of load_kichwa_data, transcribed from the source literal. -/
def topic_regiones : Topic := [
  ("introduccion",
    Entry.text "Los Kichwas ecuatorianos se distribuyen en distintas regiones geográficas, cada una con características culturales particulares que reflejan adaptaciones a diferentes entornos ecológicos."),
  ("pueblos",
    Entry.pueblosDict [
      ("Kichwas de la Sierra", Region.mk
        "Habitan las provincias andinas desde Imbabura hasta Loja. Se caracterizan por sus tradiciones agrícolas, textiles y cerámicas. Cada comunidad presenta variaciones en vestimenta, dialectos y prácticas culturales específicas."
        ["Otavalo", "Karanki", "Kayambi", "Kitu Kara", "Panzaleo", "Chibuleo", "Salasaka", "Kisapincha", "Tomabela", "Puruhá", "Kañari", "Saraguro"]),
      ("Kichwas de la Amazonía", Region.mk
        "Se encuentran principalmente en las provincias de Napo, Pastaza, Orellana y Sucumbíos. Su cultura refleja una profunda conexión con el entorno selvático, combinando prácticas ancestrales con adaptaciones más recientes."
        ["Napo Runa", "Pastaza Runa", "Canelos", "Quijos"])])]

/-- Topic "idioma" of load_kichwa_data, transcribed from the source literal. -/
def topic_idioma : Topic := [
  ("descripcion_general",
    Entry.text "El Kichwa o Quichua (Runa Shimi - \x27lengua de la gente\x27) es una variante del quechua, familia lingüística que se extiende por varios países andinos. En Ecuador, presenta características propias que lo diferencian de otras variantes regionales."),
  ("caracteristicas",
    Entry.strDict [
      ("Estructura gramatical",
        "Lengua aglutinante donde las palabras se forman agregando sufijos a las raíces. El orden básico de la oración es Sujeto-Objeto-Verbo."),
      ("Fonología",
        "Sistema vocálico de tres fonemas (a, i, u) y consonantes que incluyen sonidos particulares como el sonido /sh/ y consonantes glotalizadas."),
      ("Léxico",
        "Rico en términos relacionados con la naturaleza, agricultura y relaciones sociales. Incluye numerosos conceptos que reflejan su cosmovisión única.")]),
  ("variaciones_dialectales",
    Entry.text "Existen importantes diferencias dialectales entre el Kichwa de la Sierra y el de la Amazonía. Incluso dentro de la Sierra, hay variaciones notables entre provincias. El dialecto de Imbabura, por ejemplo, difiere del hablado en Chimborazo o Cañar."),
  ("vocabulario_basico",
    Entry.table vocabulario_basico),
  ("estado_actual",
    Entry.text "El Kichwa ecuatoriano es reconocido como idioma oficial de relación intercultural en la Constitución de 2008. Sin embargo, enfrenta desafíos para su preservación debido a factores como la discriminación histórica, la migración y la influencia dominante del español. Existen iniciativas educativas bilingües y esfuerzos para su revitalización, incluidos programas de educación intercultural bilingüe implementados por el Estado y organizaciones indígenas.")]

/-- Topic "tradiciones" of load_kichwa_data, transcribed from the source literal. -/
def topic_tradiciones : Topic := [
  ("introduccion",
    Entry.text "Las tradiciones y costumbres de los pueblos Kichwas reflejan una cosmovisión única que integra elementos ancestrales con influencias posteriores. Estas prácticas culturales transmiten valores comunitarios y mantienen viva la identidad colectiva."),
  ("festividades",
    Entry.strDict [
      ("Inti Raymi (Fiesta del Sol)",
        "Celebrada en el solsticio de junio, marca el inicio del nuevo año agrícola. Incluye bailes, música, rituales de purificación y agradecimiento a la Pachamama (Madre Tierra) por las cosechas."),
      ("Pawkar Raymi",
        "Fiesta del florecimiento celebrada en febrero/marzo. Coincide con el carnaval y está asociada con el inicio de la floración del maíz."),
      ("Kulla Raymi",
        "Celebrada en septiembre, honra a la fertilidad femenina, la luna y la preparación de la tierra para nuevos cultivos."),
      ("Kapak Raymi",
        "Celebrada en diciembre, marca el solsticio de invierno y la renovación del poder comunal y político.")]),
  ("vestimenta",
    Entry.text "La vestimenta tradicional varía según la región pero mantiene elementos identificativos propios. Los hombres suelen usar poncho, sombrero y pantalón, mientras las mujeres visten anaco (falda), blusa bordada, fachalina (chal) y variedad de accesorios. Cada prenda tiene significados simbólicos relacionados con la identidad, estatus social y conexión comunitaria. Los colores y diseños transmiten mensajes sobre la procedencia, estado civil y posición en la comunidad."),
  ("artesanias",
    Entry.strDict [
      ("Textiles",
        "Los textiles Kichwas son reconocidos por sus técnicas, diseños y simbolismo. Destacan los tejidos de Otavalo, elaborados en telares tradicionales con motivos geométricos que representan elementos de su cosmología."),
      ("Cerámica",
        "La cerámica Kichwa se caracteriza por diseños que incorporan elementos de la naturaleza y símbolos ancestrales. Se utiliza tanto para fines utilitarios como ceremoniales.")]),
  ("musica_danza",
    Entry.text "La música y danza Kichwa expresan la conexión con la naturaleza, ciclos agrícolas y momentos importantes del ciclo vital. Géneros como el sanjuanito, yaraví y danzante acompañan celebraciones comunitarias y rituales. Los bailes suelen realizarse en círculos, representando la concepción cíclica del tiempo y la vida comunitaria."),
  ("instrumentos_musicales",
    Entry.strList [
      "Rondador (flauta de pan)",
      "Pingullo (flauta vertical)",
      "Bocina (instrumento de viento hecho de caña)",
      "Chajchas (sonajeros)",
      "Bombo (tambor)",
      "Charango (instrumento de cuerda)"])]

/-- Topic "cosmovision" of load_kichwa_data, transcribed from the source literal. -/
def topic_cosmovision : Topic := [
  ("introduccion",
    Entry.text "La cosmovisión Kichwa se basa en una comprensión del universo como un todo interconectado donde seres humanos, naturaleza y energías espirituales coexisten en relación recíproca. Esta visión del mundo orienta sus prácticas culturales, sociales y espirituales."),
  ("principios_fundamentales",
    Entry.strDict [
      ("Sumak Kawsay (Buen Vivir)",
        "Filosofía de vida que busca la armonía entre los seres humanos y la naturaleza. Propone un modelo de bienestar colectivo basado en la reciprocidad y respeto."),
      ("Relacionalidad",
        "Principio que establece que todo está conectado, nada existe aisladamente. Las personas, comunidades, naturaleza y cosmos forman una red de relaciones interdependientes."),
      ("Complementariedad",
        "Concepto que reconoce que los opuestos no se excluyen sino que se complementan y necesitan mutuamente. Se refleja en el par hombre-mujer, sol-luna, día-noche.")]),
  ("relacion_naturaleza",
    Entry.text "Para los Kichwas, la naturaleza (Pachamama) es un ser vivo con el que se mantiene una relación de reciprocidad y respeto. No se considera a la naturaleza como un recurso a explotar, sino como una madre que sustenta la vida y merece veneración. Antes de tomar de ella, se pide permiso mediante rituales y ofrendas específicas."),
  ("medicina_tradicional",
    Entry.text "La medicina Kichwa integra conocimientos botánicos, rituales de sanación y comprensión de las energías. Los yachaks (sabios) y parteras cumplen roles fundamentales como mediadores entre el mundo material y espiritual. Las prácticas incluyen el uso de plantas medicinales, limpias energéticas y rituales que buscan restaurar el equilibrio entre cuerpo, mente y espíritu.")]

/-- Topic "diseno_cultural" of load_kichwa_data, transcribed from the source literal. -/
def topic_diseno_cultural : Topic := [
  ("introduccion",
    Entry.text "Los elementos estéticos de la cultura Kichwa reflejan su cosmovisión, historia y relación con el entorno. Colores, formas y motivos transmiten significados profundos relacionados con su identidad cultural."),
  ("significado_colores",
    Entry.strDict significado_colores),
  ("chakana",
    Entry.text "La chakana (cruz andina) es un símbolo central en la cosmovisión Kichwa. Representa la conexión entre los mundos superior e inferior, así como los cuatro elementos y direcciones. Su diseño encarna el principio de ordenamiento del cosmos."),
  ("disenos_textiles",
    Entry.text "Los textiles Kichwas incorporan diseños geométricos con significados específicos: espirales (ciclos de vida), zigzags (montañas y caminos), rombos (fertilidad), entre otros. Cada motivo transmite aspectos de su historia, territorio y concepción del universo.")]

/-- The dictionary returned by KichwaInfoSystem.load_kichwa_data (second class definition, source lines 599-696), as an ordered association list. -/
def load_kichwa_data : Store := [
  ("informacion_general", topic_informacion_general),
  ("regiones", topic_regiones),
  ("idioma", topic_idioma),
  ("tradiciones", topic_tradiciones),
  ("cosmovision", topic_cosmovision),
  ("diseno_cultural", topic_diseno_cultural)]

/-! ## Style configuration

Both class definitions in the module define configure_styles.  Each builds
a colors dictionary and then performs a fixed sequence of lookups in it
while configuring ttk styles.  We embed the dictionaries and, in source
order, the keys each version looks up. -/

/-- The colors dictionary built by configure_styles of the second (executed)
class definition, source lines 703-710. -/
def colors_second : Colors :=
  [("primary", "#8B2323"), ("secondary", "#CD853F"), ("accent", "#FFD700"),
   ("background", "#F5F5DC"), ("text", "#343e40"), ("highlight", "#228B22")]

/-- The colors dictionary built by configure_styles of the first (shadowed)
class definition, source lines 52-59; its text token differs. -/
def colors_first : Colors :=
  [("primary", "#8B2323"), ("secondary", "#CD853F"), ("accent", "#FFD700"),
   ("background", "#F5F5DC"), ("text", "#8B2323"), ("highlight", "#228B22")]

/-- Keys looked up in self.colors by the second configure_styles, in source
order (lines 713-729).  The literal foreground value "red" on lines 718 and
726 is not a dictionary lookup and so does not appear here. -/
def style_accesses_second : List String :=
  ["background", "background", "secondary", "text", "primary", "background",
   "text", "primary", "secondary", "primary", "background"]

/-- Keys looked up in self.colors by the first, shadowed configure_styles, in
source order (lines 62-78): it indexes the dictionary with the unregistered
keys "#8B2323" (lines 62, 63, 68, 74, 78) and "red" (line 65). -/
def style_accesses_first : List String :=
  ["#8B2323", "#8B2323", "secondary", "red", "primary", "#8B2323", "text",
   "primary", "secondary", "#8B2323", "#8B2323"]

/-- Performs the given sequence of dictionary lookups; the first missing key
raises KeyError, as in Python. -/
def run_style_accesses (colors : Colors) : List String → Except String Unit
  | [] => Except.ok ()
  | k :: rest => do
    let _ ← dictGetE colors k
    run_style_accesses colors rest

/-- Embedding of the executed (second) configure_styles body. -/
def configure_styles_second : Except String Unit :=
  run_style_accesses colors_second style_accesses_second

/-- Embedding of the shadowed (first) configure_styles body. -/
def configure_styles_first : Except String Unit :=
  run_style_accesses colors_first style_accesses_first

/-- StyleConfig.resolve of the spec: the lookup of a style-token name in the
colors mapping built by configure_styles.  A plain dict read in the source;
none models the KeyError raised on an unregistered name. -/
def resolve (colors : Colors) (tokenName : String) : Option String :=
  dictGet colors tokenName

/-- StyleConfig.resolve with the style state threaded through: the source
performs a dict read, which returns the value and leaves the dictionary as
it was. -/
def resolveS (colors : Colors) (tokenName : String) : Option String × Colors :=
  (dictGet colors tokenName, colors)

/-- Resolving the same token name n times in sequence, each call running on
the style state left behind by the previous call. -/
def resolveRepeat (colors : Colors) (tokenName : String) : Nat → List (Option String) × Colors
  | 0 => ([], colors)
  | n + 1 =>
    let r := resolveS colors tokenName
    let rest := resolveRepeat r.2 tokenName n
    (r.1 :: rest.1, rest.2)

/-! ## Tab renderers

Each create_X_tab method of the executed class definition is embedded as a
function from the colors dictionary and the content store to the label it
passes to notebook.add together with the ordered sequence of visual blocks
it appends to its scrollable frame.  Dictionary reads (both content and
color tokens) appear in source order so that a missing key fails exactly
where Python would raise. -/

/-- One visual block emitted into a scrollable frame: a ttk label, a
read-only scrolled text area, or a grid-placed label cell. -/
inductive Block where
  | label (text : String)
  | textArea (content : String)
  | gridCell (row col : Nat) (text : String)
  deriving DecidableEq, Repr

/-- Reads subtopic key of a topic expecting a plain string. -/
def getText (t : Topic) (key : String) : Except String String := do
  match (← dictGetE t key) with
  | Entry.text s => Except.ok s
  | _ => Except.error ("TypeError: " ++ key)

/-- Reads a subtopic key expecting a list of strings. -/
def getStrList (t : Topic) (key : String) : Except String (List String) := do
  match (← dictGetE t key) with
  | Entry.strList xs => Except.ok xs
  | _ => Except.error ("TypeError: " ++ key)

/-- Reads a subtopic key expecting a table of string rows. -/
def getTable (t : Topic) (key : String) : Except String (List (List String)) := do
  match (← dictGetE t key) with
  | Entry.table rows => Except.ok rows
  | _ => Except.error ("TypeError: " ++ key)

/-- Reads a subtopic key expecting a string-to-string dictionary. -/
def getStrDict (t : Topic) (key : String) : Except String (List (String × String)) := do
  match (← dictGetE t key) with
  | Entry.strDict kvs => Except.ok kvs
  | _ => Except.error ("TypeError: " ++ key)

/-- Reads a subtopic key expecting the dictionary of regions. -/
def getPueblos (t : Topic) (key : String) : Except String (List (String × Region)) := do
  match (← dictGetE t key) with
  | Entry.pueblosDict kvs => Except.ok kvs
  | _ => Except.error ("TypeError: " ++ key)

/-- The bullet loop of create_overview_tab (lines 843-853): per item it looks
up the primary color for the bullet label and emits the bullet and the item
text. -/
def bulletBlocks (colors : Colors) : List String → Except String (List Block)
  | [] => Except.ok []
  | c :: rest => do
    let _ ← dictGetE colors "primary"
    let tail ← bulletBlocks colors rest
    Except.ok (Block.label "•" :: Block.label c :: tail)

/-- The two-column grid loop used for communities (lines 918-927) and for
instruments (lines 1145-1154): col is incremented after each item and reset
to 0, advancing row, once it exceeds 1. -/
def twoColumnGrid : List String → Nat → Nat → List Block
  | [], _, _ => []
  | item :: rest, row, col =>
    Block.gridCell row col ("• " ++ item) ::
      (if col + 1 > 1 then twoColumnGrid rest (row + 1) 0
       else twoColumnGrid rest row (col + 1))

/-- The dictionary-iteration loops that emit a bold subtitle (colored with
the secondary token) followed by a description label, used for linguistic
features, festivals, crafts and worldview principles. -/
def subtitledPairs (colors : Colors) : List (String × String) → Except String (List Block)
  | [] => Except.ok []
  | (k, v) :: rest => do
    let _ ← dictGetE colors "secondary"
    let tail ← subtitledPairs colors rest
    Except.ok (Block.label k :: Block.label v :: tail)

/-- The vocabulary row loop of create_language_tab (lines 1007-1015): each
row is tuple-unpacked into exactly three values (a row of any other arity
would raise ValueError) and placed on grid row i+1. -/
def vocabRowBlocks : List (List String) → Nat → Except String (List Block)
  | [], _ => Except.ok []
  | [spanish, kichwa, pron] :: rest, i => do
    let tail ← vocabRowBlocks rest (i + 1)
    Except.ok (Block.gridCell (i + 1) 0 spanish :: Block.gridCell (i + 1) 1 kichwa ::
      Block.gridCell (i + 1) 2 pron :: tail)
  | _ :: _, _ => Except.error "ValueError: not enough values to unpack"

/-- The header row of the vocabulary table emitted by create_language_tab
(lines 994-1004): three bold labels on grid row 0. -/
def vocab_header_blocks : List Block :=
  [Block.gridCell 0 0 "Español", Block.gridCell 0 1 "Kichwa",
   Block.gridCell 0 2 "Pronunciación"]

/-- Shallow embedding of KichwaInfoSystem.create_overview_tab (second class
definition, source lines 777-853): the tab label passed to notebook.add and
the blocks appended to the scrollable frame, with color and content reads in
source order. -/
def create_overview_tab (colors : Colors) (store : Store) :
    Except String (String × List Block) := do
  let _ ← dictGetE colors "background"
  let overview_data ← dictGetE store "informacion_general"
  let introduccion ← getText overview_data "introduccion"
  let _ ← dictGetE colors "background"
  let _ ← dictGetE colors "text"
  let historia ← getText overview_data "historia"
  let _ ← dictGetE colors "background"
  let _ ← dictGetE colors "text"
  let distribucion ← getText overview_data "distribucion_geografica"
  let _ ← dictGetE colors "background"
  let _ ← dictGetE colors "text"
  let caracteristicas ← getStrList overview_data "caracteristicas_culturales"
  let bullets ← bulletBlocks colors caracteristicas
  Except.ok ("Información General",
    [Block.label "¿Quiénes son los Kichwas?", Block.textArea introduccion,
     Block.label "Historia", Block.textArea historia,
     Block.label "Distribución Geográfica", Block.textArea distribucion,
     Block.label "Características Culturales Destacadas"] ++ bullets)

/-- The per-region loop of create_regions_tab (lines 893-927): region title
(primary token), description text area (background and text tokens), the
communities caption and the two-column community grid. -/
def regionBlocks (colors : Colors) : List (String × Region) → Except String (List Block)
  | [] => Except.ok []
  | (name, info) :: rest => do
    let _ ← dictGetE colors "primary"
    let _ ← dictGetE colors "background"
    let _ ← dictGetE colors "text"
    let tail ← regionBlocks colors rest
    Except.ok ([Block.label name, Block.textArea info.descripcion,
      Block.label "Comunidades principales:"] ++
      twoColumnGrid info.comunidades 0 0 ++ tail)

/-- Shallow embedding of KichwaInfoSystem.create_regions_tab (second class
definition, source lines 855-927). -/
def create_regions_tab (colors : Colors) (store : Store) :
    Except String (String × List Block) := do
  let _ ← dictGetE colors "background"
  let regiones_data ← dictGetE store "regiones"
  let intro ← getText regiones_data "introduccion"
  let _ ← dictGetE colors "background"
  let _ ← dictGetE colors "text"
  let pueblos ← getPueblos regiones_data "pueblos"
  let regions ← regionBlocks colors pueblos
  Except.ok ("Regiones",
    [Block.label "Pueblos Kichwas por Regiones Geográficas",
     Block.textArea intro] ++ regions)

/-- Shallow embedding of KichwaInfoSystem.create_language_tab (second class
definition, source lines 929-1039).  Note the second definition emits the
current-status text before the dialect-variations text. -/
def create_language_tab (colors : Colors) (store : Store) :
    Except String (String × List Block) := do
  let _ ← dictGetE colors "background"
  let lang_data ← dictGetE store "idioma"
  let descripcion ← getText lang_data "descripcion_general"
  let _ ← dictGetE colors "background"
  let _ ← dictGetE colors "text"
  let caracteristicas ← getStrDict lang_data "caracteristicas"
  let features ← subtitledPairs colors caracteristicas
  let vocabulario ← getTable lang_data "vocabulario_basico"
  let rows ← vocabRowBlocks vocabulario 0
  let estado ← getText lang_data "estado_actual"
  let _ ← dictGetE colors "background"
  let _ ← dictGetE colors "text"
  let variaciones ← getText lang_data "variaciones_dialectales"
  let _ ← dictGetE colors "background"
  let _ ← dictGetE colors "text"
  Except.ok ("Idioma",
    [Block.label "Kichwa Ecuatoriano (Runa Shimi)", Block.textArea descripcion,
     Block.label "Características Lingüísticas"] ++ features ++
    (Block.label "Vocabulario Básico" :: vocab_header_blocks) ++ rows ++
    [Block.label "Estado Actual del Idioma", Block.textArea estado,
     Block.label "Variaciones Dialectales", Block.textArea variaciones])

/-- Shallow embedding of KichwaInfoSystem.create_traditions_tab (second
class definition, source lines 1041-1154). -/
def create_traditions_tab (colors : Colors) (store : Store) :
    Except String (String × List Block) := do
  let _ ← dictGetE colors "background"
  let trad_data ← dictGetE store "tradiciones"
  let intro ← getText trad_data "introduccion"
  let _ ← dictGetE colors "background"
  let _ ← dictGetE colors "text"
  let festividades ← getStrDict trad_data "festividades"
  let fests ← subtitledPairs colors festividades
  let vestimenta ← getText trad_data "vestimenta"
  let _ ← dictGetE colors "background"
  let _ ← dictGetE colors "text"
  let artesanias ← getStrDict trad_data "artesanias"
  let crafts ← subtitledPairs colors artesanias
  let musica ← getText trad_data "musica_danza"
  let _ ← dictGetE colors "background"
  let _ ← dictGetE colors "text"
  let instrumentos ← getStrList trad_data "instrumentos_musicales"
  Except.ok ("Tradiciones",
    [Block.label "Tradiciones y Costumbres", Block.textArea intro,
     Block.label "Principales Festividades"] ++ fests ++
    [Block.label "Vestimenta Tradicional", Block.textArea vestimenta,
     Block.label "Artesanías"] ++ crafts ++
    [Block.label "Música y Danza", Block.textArea musica,
     Block.label "Instrumentos Musicales Tradicionales"] ++
    twoColumnGrid instrumentos 0 0)

/-- Shallow embedding of KichwaInfoSystem.create_worldview_tab (second class
definition, source lines 1156-1233). -/
def create_worldview_tab (colors : Colors) (store : Store) :
    Except String (String × List Block) := do
  let _ ← dictGetE colors "background"
  let cosmo_data ← dictGetE store "cosmovision"
  let intro ← getText cosmo_data "introduccion"
  let _ ← dictGetE colors "background"
  let _ ← dictGetE colors "text"
  let principios ← getStrDict cosmo_data "principios_fundamentales"
  let principles ← subtitledPairs colors principios
  let naturaleza ← getText cosmo_data "relacion_naturaleza"
  let _ ← dictGetE colors "background"
  let _ ← dictGetE colors "text"
  let medicina ← getText cosmo_data "medicina_tradicional"
  let _ ← dictGetE colors "background"
  let _ ← dictGetE colors "text"
  Except.ok ("Cosmovisión",
    [Block.label "Cosmovisión Kichwa", Block.textArea intro,
     Block.label "Principios Fundamentales"] ++ principles ++
    [Block.label "Relación con la Naturaleza", Block.textArea naturaleza,
     Block.label "Medicina Tradicional", Block.textArea medicina])

/-! ## The design tab and its color-key string parsing -/

/-- Auxiliary character-level splitter for pySplitSpace. -/
def splitSpaceAux : List Char → List Char → List (List Char)
  | [], acc => [acc.reverse]
  | c :: rest, acc =>
    if c = Char.ofNat 32 then acc.reverse :: splitSpaceAux rest []
    else splitSpaceAux rest (c :: acc)

/-- Python str.split with the explicit single-space separator, as in
color.split at line 1282: splits at every space and keeps empty parts. -/
def pySplitSpace (s : String) : List String :=
  (splitSpaceAux s.toList []).map (fun cs => String.mk cs)

/-- Python str.strip with an explicit character set: removes the leading and
trailing characters that belong to the set. -/
def pyStrip (chars : List Char) (s : String) : String :=
  String.mk (((s.toList.dropWhile (fun c => c ∈ chars)).reverse.dropWhile
    (fun c => c ∈ chars)).reverse)

/-- Python list indexing xs[i]; an out-of-range index raises IndexError. -/
def pyIndex {α : Type} (xs : List α) (i : Nat) : Except String α :=
  match xs.get? i with
  | some x => Except.ok x
  | none => Except.error "IndexError: list index out of range"

/-- The parse create_design_tab performs on each key of significado_colores
(source lines 1282-1283): the Spanish name is the space-split part at index
0 and the Kichwa name is the part at index 1 stripped of the parenthesis
characters (codepoints 40 and 41). -/
def parse_color_key (color : String) : Except String (String × String) := do
  let color_name ← pyIndex (pySplitSpace color) 0
  let part_one ← pyIndex (pySplitSpace color) 1
  Except.ok (color_name, pyStrip [Char.ofNat 40, Char.ofNat 41] part_one)

/-- The per-color loop of create_design_tab (lines 1278-1292): parse the
combined key, emit the bold title (secondary token) and the meaning label. -/
def colorBlocks (colors : Colors) : List (String × String) → Except String (List Block)
  | [] => Except.ok []
  | (color, meaning) :: rest => do
    let parsed ← parse_color_key color
    let _ ← dictGetE colors "secondary"
    let tail ← colorBlocks colors rest
    Except.ok (Block.label (parsed.1 ++ " - " ++ parsed.2) ::
      Block.label meaning :: tail)

/-- Shallow embedding of KichwaInfoSystem.create_design_tab (second class
definition, source lines 1235-1316). -/
def create_design_tab (colors : Colors) (store : Store) :
    Except String (String × List Block) := do
  let _ ← dictGetE colors "background"
  let design_data ← dictGetE store "diseno_cultural"
  let intro ← getText design_data "introduccion"
  let _ ← dictGetE colors "background"
  let _ ← dictGetE colors "text"
  let significado ← getStrDict design_data "significado_colores"
  let colorList ← colorBlocks colors significado
  let chakana ← getText design_data "chakana"
  let _ ← dictGetE colors "background"
  let _ ← dictGetE colors "text"
  let textiles ← getText design_data "disenos_textiles"
  let _ ← dictGetE colors "background"
  let _ ← dictGetE colors "text"
  Except.ok ("Diseño Cultural",
    [Block.label "Elementos de Diseño Cultural", Block.textArea intro,
     Block.label "Significado de los Colores"] ++ colorList ++
    [Block.label "La Chakana (Cruz Andina)", Block.textArea chakana,
     Block.label "Diseños Textiles", Block.textArea textiles])

/-! ## Application shell -/

/-- The store bound to self.kichwa_data by the executed __init__ (line 591). -/
def kichwa_data : Store := load_kichwa_data

/-- ContentStore.getTopic with the store threaded through, mirroring that a
Python dict read returns a value and performs no mutation on the store. -/
def getTopicS (store : Store) (key : String) : Option Topic × Store :=
  (dictGet store key, store)

/-- Shallow embedding of create_widgets of the executed (second) class
definition (source lines 731-764): the six create_X_tab calls in source
order, each adding one tab to the notebook. -/
def create_widgets (colors : Colors) (store : Store) :
    Except String (List (String × List Block)) := do
  let t1 ← create_overview_tab colors store
  let t2 ← create_regions_tab colors store
  let t3 ← create_language_tab colors store
  let t4 ← create_traditions_tab colors store
  let t5 ← create_worldview_tab colors store
  let t6 ← create_design_tab colors store
  Except.ok [t1, t2, t3, t4, t5, t6]

/-- The two sequential class statements of the module both bind the same
top-level name; the value bound later shadows the earlier one. -/
inductive ClassVersion where
  | firstDef
  | secondDef
  deriving DecidableEq, Repr

/-- Binding a module-level name: a later assignment shadows an earlier one. -/
def bind_var (env : List (String × ClassVersion)) (name : String)
    (v : ClassVersion) : List (String × ClassVersion) :=
  (name, v) :: env

/-- The module environment after executing both class statements in order:
the class at line 25 binds KichwaInfoSystem first, the class at line 577
rebinds it. -/
def module_env : List (String × ClassVersion) :=
  bind_var (bind_var [] "KichwaInfoSystem" ClassVersion.firstDef)
    "KichwaInfoSystem" ClassVersion.secondDef

/-- The configure_styles body belonging to each class definition. -/
def configure_styles_of : ClassVersion → Except String Unit
  | ClassVersion.firstDef => configure_styles_first
  | ClassVersion.secondDef => configure_styles_second

/-- Embedding of the executed (second) __init__ (lines 583-597): load the
data, configure the styles, create the widgets. -/
def init_second : Except String (List (String × List Block)) := do
  let _ ← configure_styles_second
  create_widgets colors_second kichwa_data

/-- Constructing an instance of the first class definition: its __init__
calls self.load_kichwa_data (line 39), but the first class defines no such
method, so construction raises AttributeError before configure_styles runs. -/
def init_first : Except String (List (String × List Block)) :=
  Except.error "AttributeError: KichwaInfoSystem object has no attribute load_kichwa_data"

/-- The __init__ belonging to each class definition. -/
def init_of : ClassVersion → Except String (List (String × List Block))
  | ClassVersion.firstDef => init_first
  | ClassVersion.secondDef => init_second

/-- Embedding of main (lines 1320-1323): look up the name KichwaInfoSystem
in the module environment and construct an instance of whatever class that
name denotes. -/
def main_construct : Except String (List (String × List Block)) :=
  match dictGet module_env "KichwaInfoSystem" with
  | some v => init_of v
  | none => Except.error "NameError: name KichwaInfoSystem is not defined"

/-- The fixed topic tabs created by the executed create_widgets, in order. -/
inductive TabId where
  | overview
  | regions
  | language
  | traditions
  | worldview
  | design
  deriving DecidableEq, Repr

/-- The create_X_tab routine corresponding to each tab. -/
def create_tab_of : TabId → Colors → Store → Except String (String × List Block)
  | TabId.overview => create_overview_tab
  | TabId.regions => create_regions_tab
  | TabId.language => create_language_tab
  | TabId.traditions => create_traditions_tab
  | TabId.worldview => create_worldview_tab
  | TabId.design => create_design_tab

/-- Rendering one topic tab into a given fresh surface, with the content
store threaded through: the emitted blocks are appended to the surface and
the store is returned as the builders leave it (they only read it). -/
def renderTabS (t : TabId) (colors : Colors) (store : Store)
    (surface : List Block) : Except String (String × List Block) × Store :=
  ((create_tab_of t colors store).map (fun p => (p.1, surface ++ p.2)), store)

/-! ## General lemmas -/

/-- A dictionary lookup succeeds exactly when the key occurs among the
stored keys. -/
theorem dictGet_isSome_iff {α : Type} (d : List (String × α)) (key : String) :
    (dictGet d key).isSome = true ↔ key ∈ d.map Prod.fst := by
  induction d with
  | nil => simp [dictGet]
  | cons p rest ih =>
    obtain ⟨k, v⟩ := p
    by_cases h : k = key
    · subst h
      simp [dictGet]
    · simp [dictGet, h, ih, Ne.symm h]

/-- Repeated resolution of one token name: every call returns the result of
the first one and the style state is returned unchanged. -/
theorem resolveRepeat_spec (colors : Colors) (tokenName : String) :
    ∀ n : Nat,
      (resolveRepeat colors tokenName n).1 =
          List.replicate n (resolve colors tokenName) ∧
        (resolveRepeat colors tokenName n).2 = colors
  | 0 => ⟨rfl, rfl⟩
  | n + 1 => by
    have ih := resolveRepeat_spec colors tokenName n
    refine ⟨?_, ih.2⟩
    show dictGet colors tokenName :: (resolveRepeat colors tokenName n).1 = _
    rw [ih.1]
    rfl

/-! ## Claim theorems -/

/-- Claim C1, counterexample: the executed create_widgets does not create 7
tabs; evaluating it on the loaded data yields a notebook with a different
tab count. -/
theorem create_widgets_tab_count_ne_seven :
    (create_widgets colors_second kichwa_data).toOption.map List.length ≠
      some 7 := by
  have h : (create_widgets colors_second kichwa_data).toOption.map List.length =
      some 6 := rfl
  rw [h]
  decide

/-- Claim C1 (amended): when the application starts, the executed
create_widgets adds exactly 6 tabs to the tab container, in the fixed order
overview, regions, language, traditions, worldview, design (with their
displayed labels in that order). -/
theorem create_widgets_six_tabs_in_order :
    (create_widgets colors_second kichwa_data).toOption.map
        (fun tabs => tabs.map Prod.fst) =
      some ["Información General", "Regiones", "Idioma", "Tradiciones",
        "Cosmovisión", "Diseño Cultural"] ∧
      (create_widgets colors_second kichwa_data).toOption.map List.length =
        some 6 :=
  ⟨rfl, rfl⟩

/-- Claim C2, counterexample: the content store does not have seven topic
keys, so the claim quantifying over seven keys fails. -/
theorem content_store_topic_count_ne_seven :
    (kichwa_data.map Prod.fst).length ≠ 7 := by decide

/-- Claim C2 (amended): the content store has exactly the six topic keys of
the literal, in order, and looking any of them up succeeds and yields a
topic whose sequence of sections is non-empty. -/
theorem content_store_six_topics_nonempty :
    kichwa_data.map Prod.fst =
        ["informacion_general", "regiones", "idioma", "tradiciones",
          "cosmovision", "diseno_cultural"] ∧
      ∀ p ∈ kichwa_data, (dictGet kichwa_data p.1).isSome = true ∧ p.2 ≠ [] := by
  refine ⟨rfl, ?_⟩
  decide

/-- Witness for the amended claim C2 at the first topic of the store. -/
theorem content_store_six_topics_nonempty_witness :
    ("informacion_general", topic_informacion_general) ∈ kichwa_data ∧
      ((dictGet kichwa_data "informacion_general").isSome = true ∧
        topic_informacion_general ≠ []) :=
  ⟨List.Mem.head _,
    content_store_six_topics_nonempty.2
      ("informacion_general", topic_informacion_general) (List.Mem.head _)⟩

/-- Claim C3, counterexample: resolving the unregistered token name "red"
(the very name the shadowed configure_styles indexes with) does not fall
back to any default value: the lookup simply fails. -/
theorem resolve_unregistered_token_no_fallback :
    ¬ ((resolve colors_second "red").isSome = true) := by decide

/-- Claim C3 (amended): resolution is a plain lookup that succeeds exactly
for the six registered token names and fails (KeyError, modelled as none)
for every other name, with no fallback default; the launch nevertheless
does not crash on token resolution, because the executed configure_styles
and the executed tab builders only resolve registered names. -/
theorem resolve_registered_only :
    (∀ name, (resolve colors_second name).isSome = true ↔
        name ∈ colors_second.map Prod.fst) ∧
      configure_styles_second = Except.ok () ∧
      (create_widgets colors_second kichwa_data).toOption.isSome = true :=
  ⟨fun name => dictGet_isSome_iff colors_second name, rfl, rfl⟩

/-- Claim C4: for every key absent from the content store, the lookup fails
(none models the KeyError the spec calls NotFoundError), and the store is
left unmodified by the failed lookup, so every lookup afterwards returns
exactly what it returned before. -/
theorem getTopic_absent_fails_store_unchanged :
    ∀ key, key ∉ kichwa_data.map Prod.fst →
      (getTopicS kichwa_data key).1 = none ∧
        (getTopicS kichwa_data key).2 = kichwa_data ∧
        ∀ k, dictGet (getTopicS kichwa_data key).2 k = dictGet kichwa_data k := by
  intro key hk
  refine ⟨?_, rfl, fun _ => rfl⟩
  show dictGet kichwa_data key = none
  cases h : dictGet kichwa_data key with
  | none => rfl
  | some t =>
    exact absurd ((dictGet_isSome_iff kichwa_data key).mp (by rw [h]; rfl)) hk

/-- Witness for claim C4 at the absent key "nonexistent". -/
theorem getTopic_absent_fails_store_unchanged_witness :
    "nonexistent" ∉ kichwa_data.map Prod.fst ∧
      ((getTopicS kichwa_data "nonexistent").1 = none ∧
        (getTopicS kichwa_data "nonexistent").2 = kichwa_data ∧
        ∀ k, dictGet (getTopicS kichwa_data "nonexistent").2 k =
          dictGet kichwa_data k) :=
  ⟨by decide, getTopic_absent_fails_store_unchanged "nonexistent" (by decide)⟩

/-- Claim C5: the vocabulary table of the language topic has exactly 10
rows, every row has exactly 3 entries, and the language-tab renderer emits
exactly 3 column headers. -/
theorem vocabulario_table_shape :
    vocabulario_basico.length = 10 ∧
      (∀ row ∈ vocabulario_basico, row.length = 3) ∧
      vocab_header_blocks.length = 3 := by
  refine ⟨rfl, ?_, rfl⟩
  decide

/-- Witness for claim C5 at the first vocabulary row. -/
theorem vocabulario_table_shape_witness :
    ["Hola", "Imanalla", "Imanalla (imanalya)"] ∈ vocabulario_basico ∧
      (["Hola", "Imanalla", "Imanalla (imanalya)"] : List String).length = 3 :=
  ⟨List.Mem.head _, vocabulario_table_shape.2.1 _ (List.Mem.head _)⟩

/-- Claim C6: the language topic contains the vocabulary table section; the
renderer emits the header triple Español, Kichwa, Pronunciación for it; and
the table contains the row Hola, Imanalla, Imanalla (imanalya). -/
theorem language_vocab_table_contents :
    dictGet kichwa_data "idioma" = some topic_idioma ∧
      dictGet topic_idioma "vocabulario_basico" =
        some (Entry.table vocabulario_basico) ∧
      vocab_header_blocks =
        [Block.gridCell 0 0 "Español", Block.gridCell 0 1 "Kichwa",
          Block.gridCell 0 2 "Pronunciación"] ∧
      ["Hola", "Imanalla", "Imanalla (imanalya)"] ∈ vocabulario_basico :=
  ⟨rfl, rfl, rfl, List.Mem.head _⟩

/-- Claim C7: StyleConfig.resolve is idempotent: resolving the same token
name any number of times against the initialized style configuration
returns, at every call, the result of the first call, and leaves the style
configuration unchanged. -/
theorem resolve_idempotent :
    ∀ (tokenName : String) (n : Nat),
      (resolveRepeat colors_second tokenName n).1 =
          List.replicate n (resolve colors_second tokenName) ∧
        (resolveRepeat colors_second tokenName n).2 = colors_second :=
  fun tokenName n => resolveRepeat_spec colors_second tokenName n

/-- Claim C8: rendering any topic tab into two fresh surfaces from the same
content store is deterministic: the first render leaves the store unchanged
and the second render, run on the store state the first one left behind,
emits exactly the same output; moreover every tab renders successfully on
the actual application data. -/
theorem render_twice_identical :
    ∀ (t : TabId) (colors : Colors) (store : Store),
      (renderTabS t colors store []).2 = store ∧
        (renderTabS t colors ((renderTabS t colors store []).2) []).1 =
          (renderTabS t colors store []).1 ∧
        ((renderTabS t colors_second kichwa_data []).1).toOption.isSome = true := by
  intro t colors store
  refine ⟨rfl, rfl, ?_⟩
  cases t <;> rfl

/-- Claim C9: every key of the color-meaning mapping splits on a single
space into at least two parts, so the parse performed by the design-tab
renderer never indexes out of range; and on the key Rojo (Puka) it recovers
the Spanish name Rojo and the Kichwa name Puka. -/
theorem color_keys_parse_safe :
    (∀ kv ∈ significado_colores,
        2 ≤ (pySplitSpace kv.1).length ∧
          (parse_color_key kv.1).toOption.isSome = true) ∧
      (parse_color_key "Rojo (Puka)").toOption = some ("Rojo", "Puka") := by
  refine ⟨?_, ?_⟩ <;> decide

/-- Witness for claim C9 at the first color key. -/
theorem color_keys_parse_safe_witness :
    2 ≤ (pySplitSpace "Rojo (Puka)").length ∧
      (parse_color_key "Rojo (Puka)").toOption.isSome = true :=
  color_keys_parse_safe.1
    ("Rojo (Puka)",
      "Representa la tierra, la sangre, la fuerza y la vitalidad. Simboliza el poder y la energía de la Pachamama.")
    (List.Mem.head _)

/-- Claim C10: the module binds the name KichwaInfoSystem twice and the
lookup of that name yields the second class definition; the first
definition has a configure_styles that raises KeyError on the unregistered
key #8B2323, but constructing the application through the module-level name
runs only the second definition and raises no KeyError. -/
theorem shadowed_first_class_never_runs :
    dictGet module_env "KichwaInfoSystem" = some ClassVersion.secondDef ∧
      configure_styles_of ClassVersion.firstDef =
        Except.error "KeyError: #8B2323" ∧
      main_construct.toOption.isSome = true :=
  ⟨rfl, rfl, rfl⟩

end Kichwa
